import Mathlib

/-!
Verification development for the `fun-ai-studio-runner` worker.

The repository is a Python worker (`runner/` package) that claims build-and-
deploy jobs from a queue, runs a clone/build/push/deploy pipeline, heartbeats
the job lease while the pipeline runs, reports a terminal outcome, and cleans
up images afterwards.  This file gives a shallow embedding of the parts of the
source that the verified statements are about:

* `runner/deploy_client.py`  — `heartbeat_job` (queue-client heartbeat call);
* `runner/main.py`           — `_hb_loop` (lease heartbeat task) and one
                               iteration of the `main` orchestration loop;
* `runner/build_ops.py`      — `_run` (command runner), the bearer-token
                               helpers `_parse_bearer_challenge`,
                               `_get_bearer_token_from_challenge`,
                               `_request_with_token`, and `acr_delete_image`;
* the heartbeat-lock discipline of `main.py`, as a small interleaving
  transition system.

External effects (HTTP responses, child-process outcomes) are passed in
explicitly as oracle values, so every definition is executable.  Machine-level
Python behaviours that matter are modelled explicitly, e.g. keyword-argument
binding (a call with a keyword that is not a parameter of the callee raises
`TypeError`) and truthiness of optional strings.
-/

/-! ### Kernel-computable string primitives

The embedding re-implements the handful of Python string operations it needs
(`strip`, `lower`, `split`, `in`, slicing) by structural recursion on the
character list, so that every definition evaluates inside the kernel. -/

/-- Python `str.strip()` (ASCII whitespace on both ends). -/
def pyStrip (s : String) : String :=
  String.mk (((s.data.dropWhile Char.isWhitespace).reverse.dropWhile Char.isWhitespace).reverse)

/-- Python `str.lower()` (ASCII case folding suffices here). -/
def strLower (s : String) : String := String.mk (s.data.map Char.toLower)

/-- Split a character list at every occurrence of `c` (Python
`str.split(c)`). -/
def splitOnCharAux (c : Char) : List Char → List (List Char)
  | [] => [[]]
  | x :: xs =>
      match splitOnCharAux c xs with
      | [] => [[]]
      | h :: t => if x = c then [] :: h :: t else (x :: h) :: t

def strSplitOnChar (c : Char) (s : String) : List String :=
  (splitOnCharAux c s.data).map String.mk

/-- Join with a one-character separator (inverse of `strSplitOnChar`). -/
def joinWithChar (c : Char) : List (List Char) → List Char
  | [] => []
  | [x] => x
  | x :: y :: xs => x ++ c :: joinWithChar c (y :: xs)

def strJoinWithChar (c : Char) (parts : List String) : String :=
  String.mk (joinWithChar c (parts.map String.data))

/-- Python `c in s` for a one-character needle. -/
def strContainsChar (c : Char) (s : String) : Bool := s.data.contains c

/-- Python `s[n:]`. -/
def strDropN (n : Nat) (s : String) : String := String.mk (s.data.drop n)

/-- Python `s.startswith(p)`. -/
def strStartsWith (p s : String) : Bool := List.isPrefixOf p.data s.data

/-- Python exception values that the embedded code can raise.  Only the
distinctions the code itself makes are kept. -/
inductive PyExc
  | typeError (msg : String)
  | runtimeError (msg : String)
  | requestException
  | timeoutExpired
  | attributeError
  deriving Repr, DecidableEq

/-- `str(x or "")` for an optional string: `None` and `""` are falsy. -/
def pyStrOrEmpty (x : Option String) : String :=
  match x with
  | none => ""
  | some s => s

/-- Python `a or b or ...` over strings with `""` falsy: first non-empty
element of the list, `""` if all are empty. -/
def pyFirst : List String → String
  | [] => ""
  | s :: rest => if s = "" then pyFirst rest else s

/-- Python truthiness of an optional string (`None` and `""` are falsy). -/
def truthyOptStr : Option String → Bool
  | none => false
  | some s => s != ""

/-- `int(x or d)` for an optional integer: `None` and `0` are falsy. -/
def pyIntOr (x : Option Int) (d : Int) : Int :=
  match x with
  | none => d
  | some n => if n = 0 then d else n

/-- Python f-string rendering of an optional value (`str(None) = "None"`),
used for `payload.get('userId')` inside the image-tag f-string. -/
def pyFmtOpt : Option String → String
  | none => "None"
  | some s => s

/-- Python keyword-argument binding: a call whose keyword arguments include a
name that is not among the callee's parameters raises `TypeError`. -/
def pyCallRejectsKwargs (params kwargs : List String) : Bool :=
  kwargs.any (fun k => !(params.contains k))

/-! ### Queue client (`runner/deploy_client.py`) -/

/-- The parsed `data` object of a queue heartbeat envelope (only the field the
worker reads). -/
structure QueueData where
  status : Option String := none
  deriving Repr, DecidableEq

/-- The JSON envelope a queue endpoint answers with. -/
structure QueueEnvelope where
  code : Int
  data : Option QueueData := none
  deriving Repr, DecidableEq

/-- Outcome of one queue HTTP POST as seen by the client: either
`requests.post`/`raise_for_status` raises (transport error or non-2xx), or a
2xx response with a parsed JSON envelope. -/
inductive QueueHttp
  | raises
  | ok2xx (env : QueueEnvelope)
  deriving Repr, DecidableEq

/-- The parameter list of `deploy_client.heartbeat_job` as defined in the
source: `def heartbeat_job(job_id: str, extend_seconds: int) -> None`. -/
def heartbeat_job_params : List String := ["job_id", "extend_seconds"]

/-- The keyword arguments `main.py` passes on every phase-transition heartbeat
(`phase="CLONE"`, `phase_message=...`, etc.). -/
def phase_call_kwargs : List String := ["phase", "phase_message"]

/-- `deploy_client.heartbeat_job`, lines 17–24: POSTs the heartbeat, raises on
transport error / non-2xx, raises `RuntimeError` when the envelope `code` is
not 200, and otherwise falls off the end of the function body — i.e. returns
Python `None`, never the envelope's `data` object. -/
def heartbeat_job (r : QueueHttp) : Except PyExc (Option QueueData) :=
  match r with
  | QueueHttp.raises => Except.error PyExc.requestException
  | QueueHttp.ok2xx env =>
      if env.code ≠ 200 then
        Except.error (PyExc.runtimeError "deploy heartbeat failed")
      else
        Except.ok none

/-! ### Lease heartbeat loop (`runner/main.py`, `_hb_loop`, lines 52–67) -/

/-- `interval = max(5, int(settings.JOB_LEASE_SECONDS / 2))`. -/
def hbInterval (leaseSeconds : Int) : Int :=
  max 5 (leaseSeconds / 2)

/-- One tick of `_hb_loop`: perform the heartbeat call, compute
`status = str((data or {}).get("status") or "")`, and return `true` exactly
when the loop takes the `stop_hb.set(); return` branch
(`if status and status != "RUNNING"`).  A raised heartbeat is swallowed
(logged) and the loop continues. -/
def hbLoopTick (r : QueueHttp) : Bool :=
  match heartbeat_job r with
  | Except.error _ => false
  | Except.ok data =>
      let status :=
        match data with
        | none => ""
        | some d => pyStrOrEmpty d.status
      status != "" && status != "RUNNING"

/-- Number of heartbeat calls `_hb_loop` issues over the next `fuel` ticks
starting at tick `t`, given the external stop flag at each tick and the queue
response to each tick's heartbeat.  The loop head checks `stop_hb`; if clear
it issues one heartbeat and self-stops only when `hbLoopTick` says so. -/
def hbLoopIssued (extStop : Nat → Bool) (resp : Nat → QueueHttp) : Nat → Nat → Nat
  | 0, _ => 0
  | fuel + 1, t =>
      if extStop t then 0
      else 1 + (if hbLoopTick (resp t) then 0 else hbLoopIssued extStop resp fuel (t + 1))

/-! ### Command runner (`runner/build_ops.py`, `_run`, lines 14–26) -/

/-- Outcome of `subprocess.run(..., timeout=..., check=False)`: either the
child completed with an exit code and captured combined output, or the
timeout expired (in which case `subprocess.run` itself raises
`TimeoutExpired`). -/
inductive ProcOutcome
  | completed (returncode : Int) (stdout : String)
  | timedOut
  deriving Repr, DecidableEq

/-- The message of the `RuntimeError` `_run` raises on a non-zero exit:
`f"command failed ({p.returncode}): {' '.join(cmd)}\n{p.stdout}"`. -/
def cmdFailMsg (cmd : List String) (rc : Int) (out : String) : String :=
  "command failed (" ++ toString rc ++ "): " ++ String.intercalate " " cmd ++ "\n" ++ out

/-- `build_ops._run`: returns the captured combined output on exit code 0,
raises `RuntimeError` (with exit code and output in the message) on a non-zero
exit, and lets `subprocess.TimeoutExpired` propagate on timeout — the function
has no handler for it. -/
def runCmdPrim (cmd : List String) (outcome : ProcOutcome) : Except PyExc String :=
  match outcome with
  | ProcOutcome.timedOut => Except.error PyExc.timeoutExpired
  | ProcOutcome.completed rc out =>
      if rc ≠ 0 then Except.error (PyExc.runtimeError (cmdFailMsg cmd rc out))
      else Except.ok out

/-- Recognizer for the single command-failure error type `_run` is specified
to raise (`CommandFailed{exitCode, output}`, realized as `RuntimeError` with
both in the message). -/
def isCommandFailedExc : PyExc → Bool
  | PyExc.runtimeError _ => true
  | _ => false

/-! ### One iteration of the orchestrator loop (`runner/main.py`, `main`)

The loop body (lines 24–143) is embedded as a pure function of
* the relevant `settings` values,
* an oracle `IterWorld` fixing the outcome of each external call, and
* the Python locals that survive from earlier iterations (`job_id`,
  `stop_hb` stay bound in `main`'s frame across `while` iterations).

It returns the sequence of externally visible actions the iteration performs
plus the updated locals.  The concurrent heartbeat thread's own calls are
modelled separately (`hbLoopTick` above and the lock system below); here only
its start is recorded. -/

/-- `job["payload"]` fields the orchestrator reads (all via `.get`, so every
field is optional). -/
structure Payload where
  appId : Option String := none
  userId : Option String := none
  image : Option String := none
  repoSshUrl : Option String := none
  gitRef : Option String := none
  imageTag : Option String := none
  containerPort : Option Int := none
  basePath : Option String := none
  acrRegistry : Option String := none
  acrNamespace : Option String := none
  deriving Repr, DecidableEq

/-- `job["runtimeNode"]`. -/
structure RuntimeNode where
  agentBaseUrl : Option String := none
  deriving Repr, DecidableEq

/-- A claimed job as returned by `claim_job()` (`data` of the claim
envelope). -/
structure Job where
  id : Option String := none
  runtimeNode : Option RuntimeNode := none
  payload : Option Payload := none
  deriving Repr, DecidableEq

/-- The `settings` values `main` reads (with the defaults from
`runner/settings.py` for reference; theorems quantify over them). -/
structure RunnerSettings where
  JOB_LEASE_SECONDS : Int := 30
  ACR_REGISTRY : String := ""
  ACR_NAMESPACE : String := "funaistudio"
  RUNNER_WORKDIR : String := "/data/funai/runner/workdir"
  ACR_USERNAME : String := ""
  ACR_PASSWORD : String := ""
  deriving Repr, DecidableEq

/-- Externally visible actions of one orchestrator iteration.  Operations
that can fail carry the outcome (`ok`) their oracle entry produced. -/
inductive Act
  | claimCall
  | hbThreadStart
  | hbPhaseAttempt (phase : String)
  | ensureCleanDir (dir : String)
  | gitClone (repo ref dir : String) (ok : Bool)
  | dockerBuild (image : String) (ok : Bool)
  | dockerPush (image : String) (ok : Bool)
  | deployCall (agent userId appId image : String) (port : Int) (basePath : String) (ok : Bool)
  | reportCall (jobId status : String)
  | stopHbSet
  | dockerRmi (image : String)
  | acrDeleteCall (image : String)
  deriving Repr, DecidableEq

/-- Oracle for the external calls one iteration can make. -/
structure IterWorld where
  claimRes : Except PyExc (Option Job)
  cloneRes : Except PyExc Unit := Except.ok ()
  buildRes : Except PyExc Unit := Except.ok ()
  pushRes : Except PyExc Unit := Except.ok ()
  deployRes : Except PyExc Unit := Except.ok ()
  reportRes : Except PyExc Unit := Except.ok ()

/-- The `main` frame locals that outlive one `while` iteration.  `jobId` is
the last value bound to `job_id` (`none` both for "never bound" and for a
bound Python `None`, which behave identically in the handler's truthiness
test); `hasStopHb` says whether `stop_hb` has ever been bound. -/
structure MainLocals where
  jobId : Option String := none
  hasStopHb : Bool := false
  deriving Repr, DecidableEq

/-- Exception-plus-action-trace monad for the embedded Python control flow:
a computation takes the action trace so far and yields an `Except` result and
the extended trace. -/
def PyM (α : Type) : Type := List Act → Except PyExc α × List Act

instance : Monad PyM where
  pure a := fun s => (Except.ok a, s)
  bind m f := fun s =>
    match (m s).1 with
    | Except.ok a => f a (m s).2
    | Except.error e => (Except.error e, (m s).2)

/-- `raise e`. -/
def PyM.throw (e : PyExc) : PyM α := fun s => (Except.error e, s)

/-- Record an action that cannot fail. -/
def emitAct (a : Act) : PyM Unit := fun s => (Except.ok (), s ++ [a])

/-- Record a fallible external operation: the action (tagged with whether it
succeeded) enters the trace, and its failure is re-raised. -/
def opCall (r : Except PyExc Unit) (mk : Bool → Act) : PyM Unit := fun s =>
  (r, s ++ [mk r.toBool])

/-- Record a queue `report_job` call.  The call itself is counted in the
trace whatever its outcome; the outcome is re-raised (the orchestrator's
success-path report is inside the big `try`, while the handler's FAILED
report swallows its own failure, modelled at the call sites). -/
def reportOp (r : Except PyExc Unit) (jid status : String) : PyM Unit := fun s =>
  (r, s ++ [Act.reportCall jid status])

/-- A phase-transition heartbeat, `with hb_lock: heartbeat_job(str(job_id),
int(settings.JOB_LEASE_SECONDS), phase=..., phase_message=...)` (main.py
lines 87–88, 96–97, 100–101, 112–113).  `heartbeat_job`'s parameter list has
no `phase`/`phase_message`, so by Python keyword binding the call raises
`TypeError` before any HTTP request is made; the (counterfactual) successful
branch is kept for the shape of the source. -/
def phaseHeartbeat (phase : String) : PyM Unit := do
  emitAct (Act.hbPhaseAttempt phase)
  if pyCallRejectsKwargs heartbeat_job_params phase_call_kwargs then
    PyM.throw (PyExc.typeError "heartbeat_job got an unexpected keyword argument")
  else
    pure ()

/-- The body of one iteration after a successful claim of `job` (main.py
lines 30–129), in the big `try`.  Exceptions propagate to the caller
(`mainIter`), which runs the `except` handler. -/
def runBody (st : RunnerSettings) (w : IterWorld) (job : Job) : PyM Unit := do
  let node := job.runtimeNode.getD {}
  let payload := job.payload.getD {}
  let app_id := pyStrOrEmpty payload.appId
  let agent_base_url := pyStrOrEmpty node.agentBaseUrl
  let port := pyIntOr payload.containerPort 3000
  let base_path := pyStrip (pyStrOrEmpty payload.basePath)
  emitAct Act.hbThreadStart
  let image0 := pyStrOrEmpty payload.image
  let resolved ←
    if image0 = "" then do
      let repo_ssh_url := pyStrOrEmpty payload.repoSshUrl
      let git_ref := pyFirst [pyStrOrEmpty payload.gitRef, "main"]
      let acr_registry := pyFirst [pyStrOrEmpty payload.acrRegistry, st.ACR_REGISTRY]
      let acr_namespace := pyFirst [pyStrOrEmpty payload.acrNamespace, st.ACR_NAMESPACE]
      if acr_registry = "" then
        PyM.throw (PyExc.runtimeError "missing ACR_REGISTRY (required when payload.image not provided)")
      else do
        let work_root := pyFirst [st.RUNNER_WORKDIR, "/tmp/funai-runner-workdir"]
        let work_dir := work_root ++ "/app-" ++ app_id
        phaseHeartbeat "CLONE"
        emitAct (Act.ensureCleanDir work_dir)
        opCall w.cloneRes (Act.gitClone repo_ssh_url git_ref work_dir)
        let image_tag := pyFirst [pyStrOrEmpty payload.imageTag, "latest"]
        let image := acr_registry ++ "/" ++ acr_namespace ++ "/u" ++ pyFmtOpt payload.userId
          ++ "-app" ++ app_id ++ ":" ++ image_tag
        phaseHeartbeat "BUILD"
        opCall w.buildRes (Act.dockerBuild image)
        phaseHeartbeat "PUSH"
        opCall w.pushRes (Act.dockerPush image)
        pure (image, true)
    else
      pure (image0, false)
  let image := resolved.1
  let built_image := resolved.2
  if !truthyOptStr job.id || app_id = "" || image = "" || agent_base_url = "" then
    PyM.throw (PyExc.runtimeError "missing fields")
  else do
    let user_id := pyStrOrEmpty payload.userId
    phaseHeartbeat "DEPLOY"
    opCall w.deployRes (Act.deployCall agent_base_url user_id app_id image port base_path)
    reportOp w.reportRes (pyStrOrEmpty job.id) "SUCCEEDED"
    emitAct Act.stopHbSet
    if built_image && image != "" then do
      emitAct (Act.dockerRmi image)
      emitAct (Act.acrDeleteCall image)
    else
      pure ()

/-- One iteration of the `while True` loop (main.py lines 24–143): the claim,
the body, and the `except` handler (best-effort FAILED report when the
currently bound `job_id` is truthy, then best-effort `stop_hb.set()`).  A
claim that raises runs the handler against the *previous* iteration's locals,
because `job_id` is only rebound after a successful claim. -/
def mainIter (st : RunnerSettings) (w : IterWorld) (prev : MainLocals) :
    List Act × MainLocals :=
  match w.claimRes with
  | Except.error _ =>
      let acts := [Act.claimCall]
      let acts := if truthyOptStr prev.jobId then
          acts ++ [Act.reportCall (pyStrOrEmpty prev.jobId) "FAILED"] else acts
      let acts := if prev.hasStopHb then acts ++ [Act.stopHbSet] else acts
      (acts, prev)
  | Except.ok none =>
      ([Act.claimCall], prev)
  | Except.ok (some job) =>
      let locals2 : MainLocals := { jobId := job.id, hasStopHb := true }
      match runBody st w job [] with
      | (Except.ok _, acts) => (Act.claimCall :: acts, locals2)
      | (Except.error _, acts) =>
          let acts2 := Act.claimCall :: acts
          let acts2 := if truthyOptStr job.id then
              acts2 ++ [Act.reportCall (pyStrOrEmpty job.id) "FAILED"] else acts2
          (acts2 ++ [Act.stopHbSet], locals2)

/-- The `report_job` invocations in a trace, in order, as (jobId, status). -/
def reportsOf : List Act → List (String × String)
  | [] => []
  | Act.reportCall j s :: rest => (j, s) :: reportsOf rest
  | _ :: rest => reportsOf rest

/-- Did the trace contain a successful deploy? -/
def Act.isDeployOk : Act → Bool
  | Act.deployCall _ _ _ _ _ _ ok => ok
  | _ => false

/-- Did the trace contain a successful clone? -/
def Act.isCloneOk : Act → Bool
  | Act.gitClone _ _ _ ok => ok
  | _ => false

/-- Did the trace contain a successful build? -/
def Act.isBuildOk : Act → Bool
  | Act.dockerBuild _ ok => ok
  | _ => false

/-- Did the trace contain a successful push? -/
def Act.isPushOk : Act → Bool
  | Act.dockerPush _ ok => ok
  | _ => false

/-- "Every applicable phase (clone, build, push, deploy) completed without
error": deploy always applies; clone/build/push apply unless the job supplied
`payload.image`. -/
def applicablePhasesCompleted (imageSupplied : Bool) (acts : List Act) : Bool :=
  acts.any Act.isDeployOk &&
    (imageSupplied || (acts.any Act.isCloneOk && acts.any Act.isBuildOk && acts.any Act.isPushOk))

/-- Recognizers for C4's trace assertions. -/
def Act.isClone : Act → Bool
  | Act.gitClone _ _ _ _ => true
  | _ => false

def Act.isBuild : Act → Bool
  | Act.dockerBuild _ _ => true
  | _ => false

def Act.isPush : Act → Bool
  | Act.dockerPush _ _ => true
  | _ => false

def Act.isDeploy : Act → Bool
  | Act.deployCall _ _ _ _ _ _ _ => true
  | _ => false

def Act.isRmi : Act → Bool
  | Act.dockerRmi _ => true
  | _ => false

def Act.isAcrDelete : Act → Bool
  | Act.acrDeleteCall _ => true
  | _ => false

/-! ### Registry client (`runner/build_ops.py`, `acr_delete_image`, lines 158–355)

All registry traffic goes through the nested helper `_request_with_token`;
each of its invocations can issue up to four HTTP requests (the original
request, the `/v2/` ping, the token request, the retried request).  The
oracle therefore assigns one `RwtWorld` (the four possible responses) to each
`_request_with_token` call site in order of execution. -/

/-- The JSON fields of registry/token responses that the code reads. -/
structure JsonBody where
  token : Option String := none
  access_token : Option String := none
  tags : Option (List String) := none
  deriving Repr, DecidableEq

/-- An HTTP response as seen by the registry client: status code, the
`WWW-Authenticate` header (`""` when absent), the `Docker-Content-Digest`
header, and the parsed JSON body (`none` models `r.json()` raising). -/
structure HttpResp where
  status : Int
  wwwAuth : String := ""
  digest : Option String := none
  json : Option JsonBody := none
  deriving Repr, DecidableEq

/-- Responses for the at most four requests one `_request_with_token` call can
make; `Except.error` models `requests` raising at transport level. -/
structure RwtWorld where
  first : Except PyExc HttpResp := Except.ok { status := 200 }
  ping : Except PyExc HttpResp := Except.ok { status := 401 }
  tokenResp : Except PyExc HttpResp := Except.ok { status := 200 }
  retry : Except PyExc HttpResp := Except.ok { status := 200 }

/-- Python `str.strip('"')`: remove all leading and trailing double quotes. -/
def pyStripQuotes (s : String) : String :=
  String.mk (((s.data.dropWhile (· = '"')).reverse.dropWhile (· = '"')).reverse)

/-- One `k=v` item of a challenge header: skipped when it has no `=`;
otherwise split at the first `=`, strip the key, strip the value and remove
its quotes. -/
def parseChallengeItem (part : String) : Option (String × String) :=
  let p := pyStrip part
  if strContainsChar '=' p then
    match strSplitOnChar '=' p with
    | [] => none
    | k :: rest => some (pyStrip k, pyStripQuotes (pyStrip (strJoinWithChar '=' rest)))
  else none

/-- `_parse_bearer_challenge` (build_ops.py lines 202–220): case-insensitive
`Bearer ` prefix, then a naive comma-split into `k="v"` items. -/
def parse_bearer_challenge (www : String) : List (String × String) :=
  if www = "" then []
  else
    let s := pyStrip www
    if !(strStartsWith "bearer " (strLower s)) then []
    else
      (strSplitOnChar ',' (pyStrip (strDropN 7 s))).filterMap parseChallengeItem

/-- Python dict `.get`: the last binding of a key wins. -/
def dictGet (d : List (String × String)) (k : String) : Option String :=
  (d.reverse.find? (fun p => p.1 == k)).map (fun p => p.2)

/-- Log events (`log.warning` / `log.info` / `log.debug`). -/
inductive LogEv
  | warn (msg : String)
  | info (msg : String)
  | debug (msg : String)
  deriving Repr, DecidableEq

/-- The parameters of a token request (`realm` URL plus the optional
`service`/`scope` query parameters, each sent only when truthy). -/
structure TokenReq where
  realm : String
  serviceParam : Option String := none
  scopeParam : Option String := none
  deriving Repr, DecidableEq

/-- Result of `_get_bearer_token_from_challenge`: the returned token string
(or a propagated transport exception), plus what it did on the wire. -/
structure TokOut where
  result : Except PyExc String
  pingIssued : Bool := false
  tokenReq : Option TokenReq := none
  logs : List LogEv := []

/-- `_get_bearer_token_from_challenge` (build_ops.py lines 222–255): take
`realm`/`service` from the challenge; when `realm` is missing, probe
`https://registry/v2/` and fill both from its challenge (the probe's own
failure is swallowed); with no realm return `""`; otherwise request the token
at `realm` with the truthy `service`/`scope` parameters.  A non-200 token
response logs and returns `""`; a body that fails to parse returns `""`;
otherwise return `str(token or access_token or "")`.  Note the token request
itself is *not* inside any local `try`, so its transport failure
propagates.

`challengeRealmService` is the realm/service discovery part (lines
228–238); `getBearerTokenFromChallenge` is the whole helper. -/
def challengeRealmService (w : RwtWorld) (ch : List (String × String)) : String × String :=
  let realm0 := pyStrOrEmpty (dictGet ch "realm")
  let service0 := pyStrOrEmpty (dictGet ch "service")
  if realm0 = "" then
    match w.ping with
    | Except.error _ => (realm0, service0)
    | Except.ok pr =>
        let ch2 := parse_bearer_challenge pr.wwwAuth
        (pyFirst [realm0, pyStrOrEmpty (dictGet ch2 "realm")],
         pyFirst [service0, pyStrOrEmpty (dictGet ch2 "service")])
  else (realm0, service0)

def getBearerTokenFromChallenge (w : RwtWorld) (ch : List (String × String))
    (scope : String) : TokOut :=
  let pinged := pyStrOrEmpty (dictGet ch "realm") = ""
  let rs := challengeRealmService w ch
  let realm := rs.1
  let service := rs.2
  if realm = "" then { result := Except.ok "", pingIssued := pinged }
  else
    let req : TokenReq :=
      { realm := realm
        serviceParam := if service ≠ "" then some service else none
        scopeParam := if scope ≠ "" then some scope else none }
    match w.tokenResp with
    | Except.error e =>
        { result := Except.error e, pingIssued := pinged, tokenReq := some req }
    | Except.ok r =>
        if r.status ≠ 200 then
          { result := Except.ok "", pingIssued := pinged, tokenReq := some req
            logs := [LogEv.warn "acr token request failed"] }
        else
          match r.json with
          | none => { result := Except.ok "", pingIssued := pinged, tokenReq := some req }
          | some j =>
              { result := Except.ok (pyFirst [pyStrOrEmpty j.token, pyStrOrEmpty j.access_token])
                pingIssued := pinged, tokenReq := some req }

/-- What one `_request_with_token` call did: the original request's method,
URL and caller-requested scope, whether the `/v2/` ping ran, the token
request's parameters if one was made, and the `Authorization` value of the
retried request if a retry happened. -/
structure RwtEv where
  method : String
  url : String
  scope : String
  pingIssued : Bool := false
  tokenReq : Option TokenReq := none
  retriedWithAuth : Option String := none
  deriving Repr, DecidableEq

/-- Result of one `_request_with_token` call. -/
structure RwtOut where
  result : Except PyExc HttpResp
  ev : RwtEv
  logs : List LogEv := []

/-- `_request_with_token` (build_ops.py lines 257–272): issue the request;
on anything but 401 return it; on 401 parse the challenge, prefer the
caller's `scope` over the challenge's (`need_scope = scope or ch.get("scope")
or ""`), fetch a bearer token, and either return the original response (empty
token) or retry exactly once with `Authorization: Bearer {token}`. -/
def request_with_token (w : RwtWorld) (method url scope : String)
    (headers : List (String × String)) : RwtOut :=
  let _ := headers
  let ev0 : RwtEv := { method := method, url := url, scope := scope }
  match w.first with
  | Except.error e => { result := Except.error e, ev := ev0 }
  | Except.ok r0 =>
      if r0.status ≠ 401 then { result := Except.ok r0, ev := ev0 }
      else
        let ch := parse_bearer_challenge r0.wwwAuth
        let need_scope := pyFirst [scope, pyStrOrEmpty (dictGet ch "scope")]
        let tok := getBearerTokenFromChallenge w ch need_scope
        let ev1 := { ev0 with pingIssued := tok.pingIssued, tokenReq := tok.tokenReq }
        match tok.result with
        | Except.error e => { result := Except.error e, ev := ev1, logs := tok.logs }
        | Except.ok t =>
            if t = "" then { result := Except.ok r0, ev := ev1, logs := tok.logs }
            else
              let ev2 := { ev1 with retriedWithAuth := some ("Bearer " ++ t) }
              match w.retry with
              | Except.error e => { result := Except.error e, ev := ev2, logs := tok.logs }
              | Except.ok r1 => { result := Except.ok r1, ev := ev2, logs := tok.logs }

/-- State threaded through the `acr_delete_image` embedding: the index of the
next `_request_with_token` call, the events of the calls so far, and the log
lines so far. -/
structure AcrSt where
  idx : Nat := 0
  events : List RwtEv := []
  logs : List LogEv := []

/-- Exception/state monad for `acr_delete_image`. -/
def AcrM (α : Type) : Type := AcrSt → Except PyExc α × AcrSt

instance : Monad AcrM where
  pure a := fun s => (Except.ok a, s)
  bind m f := fun s =>
    match (m s).1 with
    | Except.ok a => f a (m s).2
    | Except.error e => (Except.error e, (m s).2)

/-- `raise e` inside the registry routine. -/
def AcrM.throw (e : PyExc) : AcrM α := fun s => (Except.error e, s)

/-- Append a log event. -/
def logEv (e : LogEv) : AcrM Unit := fun s =>
  (Except.ok (), { s with logs := s.logs ++ [e] })

/-- One `_request_with_token` call: consumes the next `RwtWorld`, records its
event and logs, and returns (or raises) its result. -/
def rwt (o : Nat → RwtWorld) (method url scope : String)
    (headers : List (String × String)) : AcrM HttpResp := fun s =>
  let out := request_with_token (o s.idx) method url scope headers
  (out.result,
   { idx := s.idx + 1, events := s.events ++ [out.ev], logs := s.logs ++ out.logs })

/-- The Python `try ... except Exception` wrapper. -/
def AcrM.catchAll (m : AcrM Unit) (h : PyExc → AcrM Unit) : AcrM Unit := fun s =>
  match (m s).1 with
  | Except.ok a => (Except.ok a, (m s).2)
  | Except.error e => h e (m s).2

/-- Parse `registry/namespace/repo[:tag]` (build_ops.py lines 179–190):
`none` when the reference has no `/`; otherwise split at the first `/`, and
split the remainder at the *last* `:` (default tag `latest`). -/
def parseImageRef (image : String) : Option (String × String × String) :=
  if !(strContainsChar '/' image) then none
  else
    match strSplitOnChar '/' image with
    | [] => none
    | registry :: restParts =>
        let rest := strJoinWithChar '/' restParts
        if strContainsChar ':' rest then
          let ps := strSplitOnChar ':' rest
          some (registry, strJoinWithChar ':' ps.dropLast, (ps.getLast?).getD "")
        else
          some (registry, rest, "latest")

/-- The primary `Accept` media type and the ordered fallback sweep. -/
def acceptHeaderMain : String := "application/vnd.docker.distribution.manifest.v2+json"

def accept_fallbacks : List String :=
  ["application/vnd.docker.distribution.manifest.v2+json",
   "application/vnd.docker.distribution.manifest.list.v2+json",
   "application/vnd.oci.image.manifest.v1+json",
   "application/vnd.oci.image.index.v1+json",
   "application/vnd.docker.distribution.manifest.v1+json",
   "*/*"]

def manifestUrl (registry name tag : String) : String :=
  "https://" ++ registry ++ "/v2/" ++ name ++ "/manifests/" ++ tag

def tagsUrl (registry name : String) : String :=
  "https://" ++ registry ++ "/v2/" ++ name ++ "/tags/list"

def pullScopeOf (name : String) : String := "repository:" ++ name ++ ":pull"

def deleteScopeOf (name : String) : String := "repository:" ++ name ++ ":pull,push,delete"

/-- `_repo_tags_exist` (build_ops.py lines 274–291). -/
def repoTagsExist (o : Nat → RwtWorld) (registry name tag : String) : AcrM Bool := do
  let r ← rwt o "GET" (tagsUrl registry name) (pullScopeOf name) []
  if r.status = 401 then do
    logEv (LogEv.warn "acr unauthorized to list tags")
    pure false
  else if r.status = 404 then
    pure false
  else if r.status ≠ 200 then do
    logEv (LogEv.debug "acr tags list unexpected")
    pure false
  else
    match r.json with
    | none => pure false
    | some j => pure ((j.tags.getD []).contains tag)

/-- The `for a in accept_fallbacks` loop of `_get_manifest_any` (build_ops.py
lines 293–307): GET with each `Accept` type, returning the first 200 or 401,
else the last response (`none` only for an empty accept list, in which case
the Python function returns `None`). -/
def getManifestAnyLoop (o : Nat → RwtWorld) (registry name tag : String) :
    List String → Option HttpResp → AcrM (Option HttpResp)
  | [], last => pure last
  | a :: rest, last => do
      let r ← rwt o "GET" (manifestUrl registry name tag) (pullScopeOf name)
        (if a = "" then [] else [("Accept", a)])
      if r.status = 200 then pure (some r)
      else if r.status = 401 then pure (some r)
      else
        let _ := last
        getManifestAnyLoop o registry name tag rest (some r)

/-- Manifest resolution (build_ops.py lines 309–323): `HEAD`, re-`GET` on
404, abort (outer `none`) on 401 after a warning, and fall back to the
`Accept` sweep when the status is not 200/201/202.  The inner `Option` is the
Python `resp` variable, which `_get_manifest_any` can in principle leave as
`None`. -/
def resolveManifest (o : Nat → RwtWorld) (registry name tag : String) :
    AcrM (Option (Option HttpResp)) := do
  let r ← rwt o "HEAD" (manifestUrl registry name tag) (pullScopeOf name)
    [("Accept", acceptHeaderMain)]
  let r ←
    if r.status = 404 then
      rwt o "GET" (manifestUrl registry name tag) (pullScopeOf name)
        [("Accept", acceptHeaderMain)]
    else pure r
  if r.status = 401 then do
    logEv (LogEv.warn "acr unauthorized to read manifest")
    pure none
  else if r.status = 200 ∨ r.status = 201 ∨ r.status = 202 then
    pure (some (some r))
  else do
    let r2 ← getManifestAnyLoop o registry name tag accept_fallbacks none
    pure (some r2)

/-- The steps after manifest resolution (build_ops.py lines 324–353): the 404
disambiguation via `/tags/list`, the non-200 abort, the digest extraction,
and the `DELETE` by digest with the widened scope.  A `none` response is the
Python `resp = None` case, where `resp.status_code` raises. -/
def afterResolve (o : Nat → RwtWorld) (registry name tag : String) :
    Option HttpResp → AcrM Unit
  | none => AcrM.throw PyExc.attributeError
  | some resp => do
      if resp.status = 404 then do
        let ex ← repoTagsExist o registry name tag
        if ex then logEv (LogEv.warn "acr tag exists but manifest not found")
        else logEv (LogEv.info "acr image not found")
      else if resp.status ≠ 200 then
        logEv (LogEv.warn "failed to get manifest")
      else
        match resp.digest with
        | none => logEv (LogEv.warn "no digest in manifest response")
        | some digest => do
            let delResp ← rwt o "DELETE"
              ("https://" ++ registry ++ "/v2/" ++ name ++ "/manifests/" ++ digest)
              (deleteScopeOf name) []
            if delResp.status = 200 ∨ delResp.status = 202 ∨ delResp.status = 204 then
              logEv (LogEv.info "acr image deleted")
            else
              logEv (LogEv.warn "failed to delete acr image")

/-- The body of the big `try` of `acr_delete_image` (lines 178–353): parse
the reference (warn and return when it has no `/`), resolve the manifest,
then act on the result. -/
def acrDeleteCore (o : Nat → RwtWorld) (image : String) : AcrM Unit := do
  match parseImageRef image with
  | none => logEv (LogEv.warn "invalid image format for acr delete")
  | some (registry, name, tag) => do
      match ← resolveManifest o registry name tag with
      | none => pure ()
      | some r => afterResolve o registry name tag r

/-- `acr_delete_image` (lines 158–355): empty image → silent return;
unconfigured credentials → debug log and return; everything else inside
`try ... except Exception` that logs and returns. -/
def acr_delete_image (st : RunnerSettings) (o : Nat → RwtWorld) (image : String) :
    AcrM Unit :=
  if image = "" then pure ()
  else
    let user := pyStrip st.ACR_USERNAME
    let pwd := pyStrip st.ACR_PASSWORD
    if user = "" ∨ pwd = "" then
      logEv (LogEv.debug "skip acr delete")
    else
      AcrM.catchAll (acrDeleteCore o image) (fun _ => logEv (LogEv.warn "acr delete failed"))

/-- Was a `DELETE` request issued (as the original method of some
`_request_with_token` call)? -/
def deleteIssued (evs : List RwtEv) : Bool :=
  evs.any (fun e => e.method == "DELETE")

/-! ### Heartbeat-lock discipline (`runner/main.py`, `hb_lock`)

`main` creates one `threading.Lock` per job and wraps *every*
`heartbeat_job` call — the periodic ones in `_hb_loop` (line 57–58) and the
four phase-transition ones (lines 87–88, 96–97, 100–101, 112–113) — in
`with hb_lock:`.  The two threads are modelled as instruction lists, where a
heartbeat HTTP call is the bracket `hbBegin`/`hbEnd` (begin ⇒ the request is
in flight) and `with hb_lock:` is `acquire`/`release`; an arbitrary
interleaving executes them. -/

inductive HbInstr
  | acquire
  | hbBegin
  | hbEnd
  | release
  | other
  deriving Repr, DecidableEq

/-- The interleaving state: the two threads' remaining instructions, the
lock holder (`some false` = main thread, `some true` = heartbeat thread), and
whether each thread has a heartbeat HTTP request in flight. -/
structure LockSys where
  progA : List HbInstr
  progB : List HbInstr
  lockHolder : Option Bool := none
  inFlightA : Bool := false
  inFlightB : Bool := false
  deriving Repr, DecidableEq

/-- One interleaving step: either thread executes its next instruction;
`acquire` blocks while the lock is held. -/
inductive LockStep : LockSys → LockSys → Prop
  | acquireA (s : LockSys) (rest : List HbInstr) :
      s.progA = HbInstr.acquire :: rest → s.lockHolder = none →
      LockStep s { s with progA := rest, lockHolder := some false }
  | hbBeginA (s : LockSys) (rest : List HbInstr) :
      s.progA = HbInstr.hbBegin :: rest →
      LockStep s { s with progA := rest, inFlightA := true }
  | hbEndA (s : LockSys) (rest : List HbInstr) :
      s.progA = HbInstr.hbEnd :: rest →
      LockStep s { s with progA := rest, inFlightA := false }
  | releaseA (s : LockSys) (rest : List HbInstr) :
      s.progA = HbInstr.release :: rest → s.lockHolder = some false →
      LockStep s { s with progA := rest, lockHolder := none }
  | otherA (s : LockSys) (rest : List HbInstr) :
      s.progA = HbInstr.other :: rest →
      LockStep s { s with progA := rest }
  | acquireB (s : LockSys) (rest : List HbInstr) :
      s.progB = HbInstr.acquire :: rest → s.lockHolder = none →
      LockStep s { s with progB := rest, lockHolder := some true }
  | hbBeginB (s : LockSys) (rest : List HbInstr) :
      s.progB = HbInstr.hbBegin :: rest →
      LockStep s { s with progB := rest, inFlightB := true }
  | hbEndB (s : LockSys) (rest : List HbInstr) :
      s.progB = HbInstr.hbEnd :: rest →
      LockStep s { s with progB := rest, inFlightB := false }
  | releaseB (s : LockSys) (rest : List HbInstr) :
      s.progB = HbInstr.release :: rest → s.lockHolder = some true →
      LockStep s { s with progB := rest, lockHolder := none }
  | otherB (s : LockSys) (rest : List HbInstr) :
      s.progB = HbInstr.other :: rest →
      LockStep s { s with progB := rest }

/-- Reflexive-transitive closure of `LockStep`. -/
inductive LockReach : LockSys → LockSys → Prop
  | refl (s : LockSys) : LockReach s s
  | tail (a b c : LockSys) : LockReach a b → LockStep b c → LockReach a c

/-- Static well-formedness of a thread's remaining program, given whether the
thread currently holds the lock (`l`) and has a heartbeat in flight (`f`):
no re-acquire while holding, heartbeats begin/end strictly inside the lock,
and the lock is only released with no heartbeat in flight.  Returns the
final flags. -/
def okProgAux : List HbInstr → Bool → Bool → Option (Bool × Bool)
  | [], l, f => some (l, f)
  | HbInstr.acquire :: r, l, f => if l then none else okProgAux r true f
  | HbInstr.hbBegin :: r, l, f => if l && !f then okProgAux r l true else none
  | HbInstr.hbEnd :: r, l, f => if l && f then okProgAux r l false else none
  | HbInstr.release :: r, l, f => if l && !f then okProgAux r false f else none
  | HbInstr.other :: r, l, f => okProgAux r l f

def okProg (p : List HbInstr) (l f : Bool) : Bool := (okProgAux p l f).isSome

/-- The inductive invariant: a thread with a heartbeat in flight holds the
lock, and both remaining programs are well-formed for their current flags. -/
def LockInv (s : LockSys) : Prop :=
  (s.inFlightA = true → s.lockHolder = some false) ∧
  (s.inFlightB = true → s.lockHolder = some true) ∧
  okProg s.progA (decide (s.lockHolder = some false)) s.inFlightA = true ∧
  okProg s.progB (decide (s.lockHolder = some true)) s.inFlightB = true

/-- `with hb_lock: heartbeat_job(...)` as an instruction block. -/
def withHbLock : List HbInstr :=
  [HbInstr.acquire, HbInstr.hbBegin, HbInstr.hbEnd, HbInstr.release]

/-- The heartbeat-relevant instruction sequence of the orchestrator thread
for one claimed job, as written in `main.py`: claim and thread start, then
the CLONE / BUILD / PUSH / DEPLOY phase heartbeats, each under the lock, with
the pipeline work between them. -/
def mainThreadHbProg : List HbInstr :=
  [HbInstr.other, HbInstr.other] ++
  withHbLock ++ [HbInstr.other, HbInstr.other] ++
  withHbLock ++ [HbInstr.other] ++
  withHbLock ++ [HbInstr.other] ++
  withHbLock ++ [HbInstr.other, HbInstr.other, HbInstr.other]

/-- `n` iterations of `_hb_loop`: each takes the lock, performs the
heartbeat, releases, then waits. -/
def hbLoopThreadProg : Nat → List HbInstr
  | 0 => []
  | n + 1 => withHbLock ++ [HbInstr.other] ++ hbLoopThreadProg n

/-- The initial interleaving state for one job: both threads at their start,
lock free, no heartbeat in flight. -/
def runnerLockSys (n : Nat) : LockSys :=
  { progA := mainThreadHbProg, progB := hbLoopThreadProg n }

/-! ### Concrete instances used by witnesses and counterexamples -/

/-- A claimed job whose `id` is absent but whose payload is otherwise
complete (C3 counterexample). -/
def c3CexJob : Job :=
  { id := none
    runtimeNode := some { agentBaseUrl := some "http://agent" }
    payload := some { appId := some "42", image := some "reg.example.com/ns/app:v1" } }

def c3CexWorld : IterWorld := { claimRes := Except.ok (some c3CexJob) }

/-- A well-formed image-supplied job (C3 witness). -/
def c3WitJob : Job :=
  { id := some "j1"
    runtimeNode := some { agentBaseUrl := some "http://agent" }
    payload := some { appId := some "42", image := some "reg.example.com/ns/app:v1" } }

def c3WitWorld : IterWorld := { claimRes := Except.ok (some c3WitJob) }

/-- A claimed job with a non-empty `payload.image` and all required fields
(C4 failing input). -/
def c4Job : Job :=
  { id := some "j1"
    runtimeNode := some { agentBaseUrl := some "http://agent" }
    payload := some { appId := some "42", userId := some "7", image := some "reg.example.com/ns/app:v1" } }

def c4World : IterWorld := { claimRes := Except.ok (some c4Job) }

/-- Settings with registry credentials configured (C6 witness). -/
def c6Settings : RunnerSettings := { ACR_USERNAME := "user", ACR_PASSWORD := "pass" }

/-- Registry oracle whose every manifest read answers 200 *without* a
`Docker-Content-Digest` header (C6 witness). -/
def c6Oracle : Nat → RwtWorld := fun _ => { first := Except.ok { status := 200 } }

def c6Image : String := "reg.example.com/ns/app:v1"

/-- A 401 answer with a full Bearer challenge whose token endpoint fails at
transport level (C7 counterexample). -/
def c7CexWorld : RwtWorld :=
  { first := Except.ok
      { status := 401
        wwwAuth := "Bearer realm=\"https://auth.example/token\",service=\"registry\"" }
    tokenResp := Except.error PyExc.requestException }

/-- A 401 answer with a full Bearer challenge, a working token endpoint and
a succeeding retry (C7 witness). -/
def c7WitWorld : RwtWorld :=
  { first := Except.ok
      { status := 401
        wwwAuth := "Bearer realm=\"https://auth.example/token\",service=\"registry\"" }
    tokenResp := Except.ok { status := 200, json := some { token := some "tok123" } }
    retry := Except.ok { status := 204 } }

/-- The interleaving state after the heartbeat thread acquired the lock and
began its heartbeat request (C8 witness: reachable in two steps). -/
def c8MidSys : LockSys :=
  { progA := mainThreadHbProg
    progB := [HbInstr.hbEnd, HbInstr.release, HbInstr.other]
    lockHolder := some true
    inFlightB := true }

/-- A well-formed job claimed in a first iteration (C10 witness). -/
def c10Job : Job :=
  { id := some "j1"
    runtimeNode := some { agentBaseUrl := some "http://agent" }
    payload := some { appId := some "42", userId := some "7", image := some "reg.example.com/ns/app:v1" } }

def c10World1 : IterWorld := { claimRes := Except.ok (some c10Job) }

/-- A second iteration whose claim call raises (C10 witness). -/
def c10World2 : IterWorld := { claimRes := Except.error PyExc.requestException }


/-! ## Verified statements

Helper lemmas first, then one theorem per claim (with its counterexample
and witness where applicable). -/

theorem pym_bind_apply {α β : Type} (m : PyM α) (f : α → PyM β) (s : List Act) :
    (m >>= f) s = match (m s).1 with
      | Except.ok a => f a (m s).2
      | Except.error e => (Except.error e, (m s).2) := rfl

theorem pym_pure_apply {α : Type} (a : α) (s : List Act) :
    (pure a : PyM α) s = (Except.ok a, s) := rfl

theorem pym_throw_apply {α : Type} (e : PyExc) (s : List Act) :
    (PyM.throw e : PyM α) s = (Except.error e, s) := rfl

theorem emitAct_apply (a : Act) (s : List Act) :
    emitAct a s = (Except.ok (), s ++ [a]) := rfl

theorem opCall_apply (r : Except PyExc Unit) (mk : Bool → Act) (s : List Act) :
    opCall r mk s = (r, s ++ [mk r.toBool]) := rfl

theorem reportOp_apply (r : Except PyExc Unit) (jid status : String) (s : List Act) :
    reportOp r jid status s = (r, s ++ [Act.reportCall jid status]) := rfl

theorem phaseHeartbeat_apply (p : String) (s : List Act) :
    phaseHeartbeat p s =
      (Except.error (PyExc.typeError "heartbeat_job got an unexpected keyword argument"),
       s ++ [Act.hbPhaseAttempt p]) := rfl

theorem runBody_shape (st : RunnerSettings) (w : IterWorld) (job : Job) :
    ∃ e : PyExc,
      runBody st w job [] = (Except.error e, [Act.hbThreadStart]) ∨
      ∃ p : String, runBody st w job [] = (Except.error e, [Act.hbThreadStart, Act.hbPhaseAttempt p]) := by
  unfold runBody
  by_cases himg : pyStrOrEmpty (job.payload.getD {}).image = ""
  · by_cases hacr : pyFirst [pyStrOrEmpty (job.payload.getD {}).acrRegistry, st.ACR_REGISTRY] = ""
    · refine ⟨PyExc.runtimeError "missing ACR_REGISTRY (required when payload.image not provided)", Or.inl ?_⟩
      simp [pym_bind_apply, emitAct_apply, phaseHeartbeat_apply, pym_throw_apply, pym_pure_apply, himg, hacr]
    · refine ⟨PyExc.typeError "heartbeat_job got an unexpected keyword argument", Or.inr ⟨"CLONE", ?_⟩⟩
      simp [pym_bind_apply, emitAct_apply, phaseHeartbeat_apply, pym_throw_apply, pym_pure_apply, himg, hacr]
  · by_cases hflds : (truthyOptStr job.id = false ∨ pyStrOrEmpty (job.payload.getD {}).appId = "") ∨
        pyStrOrEmpty ((job.runtimeNode.getD {}).agentBaseUrl) = ""
    · refine ⟨PyExc.runtimeError "missing fields", Or.inl ?_⟩
      simp [pym_bind_apply, emitAct_apply, phaseHeartbeat_apply, pym_throw_apply, pym_pure_apply, himg, hflds]
    · refine ⟨PyExc.typeError "heartbeat_job got an unexpected keyword argument", Or.inr ⟨"DEPLOY", ?_⟩⟩
      simp [pym_bind_apply, emitAct_apply, phaseHeartbeat_apply, pym_throw_apply, pym_pure_apply,
        opCall_apply, reportOp_apply, himg, hflds]


theorem hbLoopTick_eq_false (r : QueueHttp) : hbLoopTick r = false := by
  cases r with
  | raises => rfl
  | ok2xx env =>
      unfold hbLoopTick heartbeat_job
      by_cases h : env.code = 200 <;> simp [h]

theorem hbLoopIssued_eq (extStop : Nat → Bool) (resp : Nat → QueueHttp)
    (hstop : ∀ t, extStop t = false) : ∀ n t, hbLoopIssued extStop resp n t = n := by
  intro n
  induction n with
  | zero => intro t; rfl
  | succ k ih =>
      intro t
      unfold hbLoopIssued
      simp [hstop t, hbLoopTick_eq_false, ih (t + 1)]
      omega


/-- C2 (code_bug): the heartbeat task can never observe a non-RUNNING
status, because `heartbeat_job` returns `None`: its tick never takes the
self-stop branch for any queue answer, and with no external stop the loop
issues one heartbeat per tick forever — also when every answer is a 200
envelope whose data reports status CANCELED. -/
theorem hb_loop_never_self_stops :
    (∀ r : QueueHttp, hbLoopTick r = false) ∧
    ∀ n t : Nat, hbLoopIssued (fun _ => false)
      (fun _ => QueueHttp.ok2xx { code := 200, data := some { status := some "CANCELED" } }) n t = n :=
  ⟨hbLoopTick_eq_false, fun n t => hbLoopIssued_eq _ _ (fun _ => rfl) n t⟩


/-- C1 (code_bug): the queue-client heartbeat is specified to accept
`phase`/`phaseMessage` and return the envelope data (`{status?}` in the
spec's words), but `deploy_client.heartbeat_job` accepts only
`(job_id, extend_seconds)` — so every phase-transition heartbeat call of the
orchestrator raises `TypeError` by Python keyword binding — and on a 2xx
response with envelope code 200 it completes normally returning `None`,
never the data object. -/
theorem heartbeat_sig_mismatch :
    pyCallRejectsKwargs heartbeat_job_params phase_call_kwargs = true ∧
    heartbeat_job (QueueHttp.ok2xx { code := 200, data := some { status := some "FAILED" } }) =
      Except.ok none ∧
    heartbeat_job QueueHttp.raises = Except.error PyExc.requestException :=
  ⟨rfl, rfl, rfl⟩


/-- C9 counterexample: a child process exceeding the timeout makes `_run`
propagate `subprocess.TimeoutExpired`, which is not the single
command-failure error type carrying the exit code and output. -/
theorem run_timeout_not_command_failed :
    runCmdPrim ["git", "clone"] ProcOutcome.timedOut = Except.error PyExc.timeoutExpired ∧
    isCommandFailedExc PyExc.timeoutExpired = false :=
  ⟨rfl, rfl⟩


/-- C9 (corrected): `_run` returns the captured combined output on exit
code 0 and raises the command-failure error (with exit code and output in
its message) on a non-zero exit; on timeout a distinct `TimeoutExpired`
exception from the subprocess layer propagates instead. -/
theorem run_contract (cmd : List String) (rc : Int) (out : String) :
    runCmdPrim cmd (ProcOutcome.completed rc out) =
      (if rc = 0 then Except.ok out
       else Except.error (PyExc.runtimeError (cmdFailMsg cmd rc out))) ∧
    runCmdPrim cmd ProcOutcome.timedOut = Except.error PyExc.timeoutExpired ∧
    isCommandFailedExc (PyExc.runtimeError (cmdFailMsg cmd rc out)) = true := by
  refine ⟨?_, rfl, rfl⟩
  unfold runCmdPrim
  by_cases h : rc = 0 <;> simp [h]


/-- C5 (confirmed): `acr_delete_image` returns normally for every image
string, every configuration and every HTTP outcome — unconfigured
credentials and unparsable references return after logging, and the
`try`/`except Exception` wrapper swallows every exception the protocol
steps raise, so the routine's result is always `Except.ok`. -/
theorem acr_delete_image_total (st : RunnerSettings) (o : Nat → RwtWorld) (image : String) (s : AcrSt) :
    ((acr_delete_image st o image) s).1 = Except.ok () := by
  unfold acr_delete_image
  split
  · rfl
  · dsimp only
    split
    · rfl
    · rcases hr : ((acrDeleteCore o image) s).1 with e | a <;>
        simp [AcrM.catchAll, hr, logEv]


/-- C10 (confirmed): when an iteration's claim call raises before a new job
id is bound and a previous iteration bound a (truthy) job id, the error
handler sends a best-effort FAILED report using that previous job's id and
leaves the surviving locals unchanged. -/
theorem stale_job_id_failed_report (st : RunnerSettings) (w : IterWorld) (prev : MainLocals) (pid : String)
    (e : PyExc) (h1 : prev.jobId = some pid) (h2 : pid ≠ "") (h3 : w.claimRes = Except.error e) :
    Act.reportCall pid "FAILED" ∈ (mainIter st w prev).1 ∧ (mainIter st w prev).2 = prev := by
  unfold mainIter
  rw [h3]
  refine ⟨?_, rfl⟩
  have ht2 : truthyOptStr (some pid) = true := by simp [truthyOptStr, h2]
  simp only [h1, ht2, if_true]
  split <;> simp [pyStrOrEmpty]


/-- C3 counterexample: a successfully claimed job whose `id` is absent
(payload otherwise complete, `payload.image` supplied) produces *zero*
report invocations in its iteration — the claim's "exactly once" fails. -/
theorem report_missing_id_no_report : reportsOf (mainIter {} c3CexWorld {}).1 = [] := rfl


/-- C3 (corrected): for every iteration from a successful claim of a job
whose id is non-empty, the report operation is invoked exactly once for that
job's id, with status SUCCEEDED iff every applicable phase (clone, build,
push as applicable, and deploy) completed without error. -/
theorem report_exactly_once_nonempty_id (st : RunnerSettings) (w : IterWorld) (prev : MainLocals) (job : Job)
    (jid : String) (hc : w.claimRes = Except.ok (some job)) (hid : job.id = some jid)
    (hne : jid ≠ "") :
    ∃ stt, reportsOf (mainIter st w prev).1 = [(jid, stt)] ∧
      (stt = "SUCCEEDED" ↔
        applicablePhasesCompleted (pyStrOrEmpty ((job.payload.getD {}).image) != "")
          (mainIter st w prev).1 = true) := by
  have ht2 : truthyOptStr (some jid) = true := by simp [truthyOptStr, hne]
  obtain ⟨e, h | ⟨p, h⟩⟩ := runBody_shape st w job <;>
  · refine ⟨"FAILED", ?_, ?_⟩
    · unfold mainIter
      rw [hc]
      dsimp only
      rw [h]
      simp [hid, ht2, pyStrOrEmpty, reportsOf]
    · unfold mainIter
      rw [hc]
      dsimp only
      rw [h]
      refine iff_of_false (by decide) ?_
      simp [hid, ht2, applicablePhasesCompleted, Act.isDeployOk]


/-- C4 (code_bug): evaluation at the failing input — a claimed job with a
non-empty `payload.image` and all required fields.  No clone, build or push
is invoked and no cleanup runs (as claimed), but contrary to the claim the
deploy call is never made: the DEPLOY phase-transition heartbeat raises
`TypeError` first and the job is reported FAILED. -/
theorem image_job_pipeline_at_failing_input :
    ((mainIter {} c4World {}).1.any Act.isClone = false) ∧
    ((mainIter {} c4World {}).1.any Act.isBuild = false) ∧
    ((mainIter {} c4World {}).1.any Act.isPush = false) ∧
    ((mainIter {} c4World {}).1.any Act.isDeploy = false) ∧
    ((mainIter {} c4World {}).1.any Act.isRmi = false) ∧
    ((mainIter {} c4World {}).1.any Act.isAcrDelete = false) ∧
    reportsOf (mainIter {} c4World {}).1 = [("j1", "FAILED")] ∧
    Act.hbPhaseAttempt "DEPLOY" ∈ (mainIter {} c4World {}).1 := by
  refine ⟨rfl, rfl, rfl, rfl, rfl, rfl, rfl, ?_⟩
  decide


/-- C10 witness: a first iteration claims job `j1` (reported FAILED once);
the second iteration's claim raises, and the handler reports `j1` FAILED
again. -/
theorem stale_job_id_failed_report_witness :
    reportsOf (mainIter {} c10World1 {}).1 = [("j1", "FAILED")] ∧
    Act.reportCall "j1" "FAILED" ∈ (mainIter {} c10World2 (mainIter {} c10World1 {}).2).1 :=
  ⟨rfl, (stale_job_id_failed_report {} c10World2 (mainIter {} c10World1 {}).2 "j1" PyExc.requestException rfl
      (by decide) rfl).1⟩


theorem tokOut_scopeParam (w : RwtWorld) (ch : List (String × String)) (sc : String)
    (req : TokenReq) (h : (getBearerTokenFromChallenge w ch sc).tokenReq = some req) :
    req.scopeParam = if sc ≠ "" then some sc else none := by
  unfold getBearerTokenFromChallenge at h
  dsimp only at h
  split at h
  · simp at h
  · rcases hw : w.tokenResp with e | r <;> rw [hw] at h <;> dsimp only at h
    · injection h with h2
      rw [← h2]
    · split at h
      · injection h with h2
        rw [← h2]
      · rcases hj : r.json with _ | j <;> rw [hj] at h <;> dsimp only at h <;>
          injection h with h2 <;> rw [← h2]

theorem tokOut_pingIssued (w : RwtWorld) (ch : List (String × String)) (sc : String) :
    (getBearerTokenFromChallenge w ch sc).pingIssued =
      decide (pyStrOrEmpty (dictGet ch "realm") = "") := by
  unfold getBearerTokenFromChallenge
  dsimp only
  split
  · rfl
  · rcases hw : w.tokenResp with e | r
    · rfl
    · dsimp only
      split
      · rfl
      · rcases hj : r.json with _ | j <;> rfl


theorem pyFirst_cons_ne (a b : String) (h : a ≠ "") : pyFirst [a, b] = a := by
  simp [pyFirst, h]


/-- C7 counterexample: a 401 with a full Bearer challenge whose token
endpoint fails at transport level — `_request_with_token` neither retries
nor returns the original 401 unchanged; the exception propagates, so the
claim's dichotomy is incomplete. -/
theorem token_transport_error_escapes :
    (request_with_token c7CexWorld "GET" "https://reg.example.com/v2/ns/app/manifests/v1"
        "repository:ns/app:pull" []).result = Except.error PyExc.requestException ∧
    (request_with_token c7CexWorld "GET" "https://reg.example.com/v2/ns/app/manifests/v1"
        "repository:ns/app:pull" []).ev.retriedWithAuth = none := by
  constructor <;> rfl


/-- C7 (corrected): on a 401, the caller-requested scope takes precedence
over the challenge's scope in the token request; a challenge without a realm
triggers the `/v2/` ping discovery; when the token endpoint completes and
yields a token, the original request is retried exactly once with
`Authorization: Bearer` and the retry's outcome is returned as is; when the
token endpoint completes but yields no token, the original 401 response is
returned unchanged (only a transport-level exception at the token endpoint
propagates instead). -/
theorem bearer_retry_contract (w : RwtWorld) (method url scope : String)
    (headers : List (String × String)) (r0 : HttpResp)
    (h1 : w.first = Except.ok r0) (h2 : r0.status = 401) :
    (scope ≠ "" → ∀ req : TokenReq,
      (request_with_token w method url scope headers).ev.tokenReq = some req →
        req.scopeParam = some scope) ∧
    (pyStrOrEmpty (dictGet (parse_bearer_challenge r0.wwwAuth) "realm") = "" →
      (request_with_token w method url scope headers).ev.pingIssued = true) ∧
    (∀ t : String,
      (getBearerTokenFromChallenge w (parse_bearer_challenge r0.wwwAuth)
          (pyFirst [scope, pyStrOrEmpty (dictGet (parse_bearer_challenge r0.wwwAuth) "scope")])).result
        = Except.ok t →
      (t ≠ "" →
        (request_with_token w method url scope headers).ev.retriedWithAuth = some ("Bearer " ++ t) ∧
        (request_with_token w method url scope headers).result = w.retry) ∧
      (t = "" →
        (request_with_token w method url scope headers).result = Except.ok r0 ∧
        (request_with_token w method url scope headers).ev.retriedWithAuth = none)) := by
  unfold request_with_token
  rw [h1]
  dsimp only
  rw [h2]
  simp only [if_neg (by simp : ¬((401 : Int) ≠ 401))]
  refine ⟨?_, ?_, ?_⟩
  · intro hsc req
    rcases htok : (getBearerTokenFromChallenge w (parse_bearer_challenge r0.wwwAuth)
        (pyFirst [scope, pyStrOrEmpty (dictGet (parse_bearer_challenge r0.wwwAuth) "scope")])).result
      with e | t
    · dsimp only
      intro hreq
      rw [tokOut_scopeParam _ _ _ req hreq, pyFirst_cons_ne _ _ hsc]
      simp [hsc]
    · dsimp only
      by_cases ht : t = ""
      · rw [if_pos ht]
        intro hreq
        rw [tokOut_scopeParam _ _ _ req hreq, pyFirst_cons_ne _ _ hsc]
        simp [hsc]
      · rw [if_neg ht]
        rcases hr : w.retry with e | r1 <;> dsimp only <;>
        · intro hreq
          rw [tokOut_scopeParam _ _ _ req hreq, pyFirst_cons_ne _ _ hsc]
          simp [hsc]
  · intro hrealm
    have hp := tokOut_pingIssued w (parse_bearer_challenge r0.wwwAuth)
      (pyFirst [scope, pyStrOrEmpty (dictGet (parse_bearer_challenge r0.wwwAuth) "scope")])
    rcases htok : (getBearerTokenFromChallenge w (parse_bearer_challenge r0.wwwAuth)
        (pyFirst [scope, pyStrOrEmpty (dictGet (parse_bearer_challenge r0.wwwAuth) "scope")])).result
      with e | t
    · dsimp only
      rw [hp]
      simp [hrealm]
    · dsimp only
      by_cases ht : t = ""
      · rw [if_pos ht]
        dsimp only
        rw [hp]
        simp [hrealm]
      · rw [if_neg ht]
        rcases hr : w.retry with e | r1 <;> dsimp only <;> rw [hp] <;> simp [hrealm]
  · intro t htok
    rw [htok]
    dsimp only
    constructor
    · intro ht
      rw [if_neg ht]
      rcases hr : w.retry with e | r1 <;> exact ⟨rfl, rfl⟩
    · intro ht
      rw [if_pos ht]
      exact ⟨rfl, rfl⟩


theorem acr_bind_apply {α β : Type} (m : AcrM α) (f : α → AcrM β) (s : AcrSt) :
    (m >>= f) s = match (m s).1 with
      | Except.ok a => f a (m s).2
      | Except.error e => (Except.error e, (m s).2) := rfl

theorem acr_pure_apply {α : Type} (a : α) (s : AcrSt) :
    (pure a : AcrM α) s = (Except.ok a, s) := rfl

theorem acr_throw_apply {α : Type} (e : PyExc) (s : AcrSt) :
    (AcrM.throw e : AcrM α) s = (Except.error e, s) := rfl

theorem logEv_apply (e : LogEv) (s : AcrSt) :
    logEv e s = (Except.ok (), { s with logs := s.logs ++ [e] }) := rfl

theorem rwt_apply (o : Nat → RwtWorld) (m u sc : String) (h : List (String × String)) (s : AcrSt) :
    rwt o m u sc h s = ((request_with_token (o s.idx) m u sc h).result,
      { idx := s.idx + 1,
        events := s.events ++ [(request_with_token (o s.idx) m u sc h).ev],
        logs := s.logs ++ (request_with_token (o s.idx) m u sc h).logs }) := rfl

theorem rwt_ev_method (w : RwtWorld) (m u sc : String) (h : List (String × String)) :
    (request_with_token w m u sc h).ev.method = m := by
  unfold request_with_token
  dsimp only
  split
  · rfl
  · split
    · rfl
    · split
      · rfl
      · split
        · rfl
        · split <;> rfl

theorem deleteIssued_append (xs ys : List RwtEv) :
    deleteIssued (xs ++ ys) = (deleteIssued xs || deleteIssued ys) := by
  simp [deleteIssued]

theorem deleteIssued_rwt (o : Nat → RwtWorld) (m u sc : String) (h : List (String × String))
    (s : AcrSt) (hm : m ≠ "DELETE") :
    deleteIssued ((rwt o m u sc h s).2.events) = deleteIssued s.events := by
  rw [rwt_apply]
  dsimp only
  rw [deleteIssued_append]
  have := rwt_ev_method (o s.idx) m u sc h
  simp [deleteIssued, this, hm]

theorem deleteIssued_repoTagsExist (o : Nat → RwtWorld) (reg name tag : String) (s : AcrSt) :
    deleteIssued ((repoTagsExist o reg name tag s).2.events) = deleteIssued s.events := by
  have hev := deleteIssued_rwt o "GET" (tagsUrl reg name) (pullScopeOf name) [] s (by decide)
  unfold repoTagsExist
  simp only [acr_bind_apply]
  split
  · split
    · simp only [acr_bind_apply, logEv_apply, acr_pure_apply]
      exact hev
    · split
      · exact hev
      · split
        · simp only [acr_bind_apply, logEv_apply, acr_pure_apply]
          exact hev
        · rename_i x r heq h1 h2 h3
          rcases hj : r.json with _ | j
          · exact hev
          · exact hev
  · exact hev


theorem deleteIssued_getManifestAnyLoop (o : Nat → RwtWorld) (reg name tag : String) :
    ∀ (accepts : List String) (last : Option HttpResp) (s : AcrSt),
      deleteIssued ((getManifestAnyLoop o reg name tag accepts last s).2.events) =
        deleteIssued s.events := by
  intro accepts
  induction accepts with
  | nil => intro last s; rfl
  | cons a rest ih =>
      intro last s
      have hev := deleteIssued_rwt o "GET" (manifestUrl reg name tag) (pullScopeOf name)
        (if a = "" then [] else [("Accept", a)]) s (by decide)
      unfold getManifestAnyLoop
      simp only [acr_bind_apply]
      split
      · split
        · exact hev
        · split
          · exact hev
          · rw [ih]
            exact hev
      · exact hev

theorem deleteIssued_resolveManifest (o : Nat → RwtWorld) (reg name tag : String) (s : AcrSt) :
    deleteIssued ((resolveManifest o reg name tag s).2.events) = deleteIssued s.events := by
  have hev1 := deleteIssued_rwt o "HEAD" (manifestUrl reg name tag) (pullScopeOf name)
    [("Accept", acceptHeaderMain)] s (by decide)
  unfold resolveManifest
  simp only [acr_bind_apply]
  split
  · -- HEAD succeeded
    split
    · -- 404 ⇒ GET fallback
      simp only [acr_bind_apply]
      split
      · -- GET succeeded: the status dispatch
        split
        · -- 401: log and abort
          simp only [acr_bind_apply, logEv_apply, acr_pure_apply]
          exact ((deleteIssued_rwt o "GET" (manifestUrl reg name tag) (pullScopeOf name)
            [("Accept", acceptHeaderMain)] _ (by decide)).trans hev1)
        · split
          · exact ((deleteIssued_rwt o "GET" (manifestUrl reg name tag) (pullScopeOf name)
              [("Accept", acceptHeaderMain)] _ (by decide)).trans hev1)
          · simp only [acr_bind_apply]
            split
            · dsimp only [acr_pure_apply]
              rw [deleteIssued_getManifestAnyLoop]
              exact ((deleteIssued_rwt o "GET" (manifestUrl reg name tag) (pullScopeOf name)
                [("Accept", acceptHeaderMain)] _ (by decide)).trans hev1)
            · dsimp only
              rw [deleteIssued_getManifestAnyLoop]
              exact ((deleteIssued_rwt o "GET" (manifestUrl reg name tag) (pullScopeOf name)
                [("Accept", acceptHeaderMain)] _ (by decide)).trans hev1)
      · -- GET raised
        exact ((deleteIssued_rwt o "GET" (manifestUrl reg name tag) (pullScopeOf name)
          [("Accept", acceptHeaderMain)] _ (by decide)).trans hev1)
    · -- no GET fallback: status dispatch from the HEAD response
      simp only [acr_bind_apply, acr_pure_apply]
      split
      · simp only [acr_bind_apply, logEv_apply, acr_pure_apply]
        exact hev1
      · split
        · exact hev1
        · simp only [acr_bind_apply]
          split
          · dsimp only [acr_pure_apply]
            rw [deleteIssued_getManifestAnyLoop]
            exact hev1
          · dsimp only
            rw [deleteIssued_getManifestAnyLoop]
            exact hev1
  · exact hev1


theorem afterResolve_none (o : Nat → RwtWorld) (reg name tag : String) (s1 : AcrSt) :
    afterResolve o reg name tag none s1 = (Except.error PyExc.attributeError, s1) := rfl

theorem afterResolve_deleteIssued (o : Nat → RwtWorld) (reg name tag : String)
    (r : HttpResp) (s1 : AcrSt) (hnd : r.status ≠ 200 ∨ r.digest = none) :
    deleteIssued ((afterResolve o reg name tag (some r) s1).2.events) = deleteIssued s1.events := by
  unfold afterResolve
  dsimp only
  by_cases h404 : r.status = 404
  · rw [if_pos h404]
    simp only [acr_bind_apply]
    split
    · split
      · simp only [logEv_apply]
        exact deleteIssued_repoTagsExist o reg name tag s1
      · simp only [logEv_apply]
        exact deleteIssued_repoTagsExist o reg name tag s1
    · exact deleteIssued_repoTagsExist o reg name tag s1
  · rw [if_neg h404]
    by_cases h200 : r.status = 200
    · rw [if_neg (by simp [h200])]
      have hd : r.digest = none := by
        rcases hnd with h | h
        · exact absurd h200 h
        · exact h
      rw [hd]
      rfl
    · rw [if_pos h200]
      rfl

theorem catchAll_events (m : AcrM Unit) (hmsg : LogEv) (s : AcrSt) :
    ((AcrM.catchAll m (fun _ => logEv hmsg)) s).2.events = (m s).2.events := by
  unfold AcrM.catchAll
  split
  · rfl
  · rfl

theorem catchAll_ok (m : AcrM Unit) (hmsg : LogEv) (s s2 : AcrSt) (a : Unit)
    (h : m s = (Except.ok a, s2)) :
    AcrM.catchAll m (fun _ => logEv hmsg) s = (Except.ok a, s2) := by
  unfold AcrM.catchAll
  rw [h]


/-- C6 (confirmed): the remote deletion routine issues the `DELETE` request
only when manifest resolution produced an HTTP 200 response carrying a
`Docker-Content-Digest` header; a 200 without the header logs the
"no digest" warning and aborts without `DELETE`; a 404 whose tag is absent
from the repository's `/tags/list` logs "not found" and aborts without
`DELETE`. -/
theorem delete_only_after_digest_200 (st : RunnerSettings) (o : Nat → RwtWorld) (image reg name tag : String)
    (himg : image ≠ "") (huser : pyStrip st.ACR_USERNAME ≠ "") (hpwd : pyStrip st.ACR_PASSWORD ≠ "")
    (hparse : parseImageRef image = some (reg, name, tag)) :
    (deleteIssued ((acr_delete_image st o image) {}).2.events = true →
       ∃ (r : HttpResp) (s1 : AcrSt),
         resolveManifest o reg name tag {} = (Except.ok (some (some r)), s1) ∧
         r.status = 200 ∧ r.digest.isSome = true) ∧
    (∀ (r : HttpResp) (s1 : AcrSt),
       resolveManifest o reg name tag {} = (Except.ok (some (some r)), s1) →
       r.status = 200 → r.digest = none →
         deleteIssued ((acr_delete_image st o image) {}).2.events = false ∧
         LogEv.warn "no digest in manifest response" ∈ ((acr_delete_image st o image) {}).2.logs) ∧
    (∀ (r : HttpResp) (s1 s2 : AcrSt),
       resolveManifest o reg name tag {} = (Except.ok (some (some r)), s1) →
       r.status = 404 → repoTagsExist o reg name tag s1 = (Except.ok false, s2) →
         deleteIssued ((acr_delete_image st o image) {}).2.events = false ∧
         LogEv.info "acr image not found" ∈ ((acr_delete_image st o image) {}).2.logs) := by
  have hred : (acr_delete_image st o image) ({} : AcrSt) =
      AcrM.catchAll (acrDeleteCore o image)
        (fun _ => logEv (LogEv.warn "acr delete failed")) ({} : AcrSt) := by
    unfold acr_delete_image
    rw [if_neg himg]
    rw [if_neg (by push_neg; exact ⟨huser, hpwd⟩)]
  have hcore : acrDeleteCore o image ({} : AcrSt) =
      (match (resolveManifest o reg name tag ({} : AcrSt)).1 with
       | Except.error e => (Except.error e, (resolveManifest o reg name tag ({} : AcrSt)).2)
       | Except.ok none => (Except.ok (), (resolveManifest o reg name tag ({} : AcrSt)).2)
       | Except.ok (some r) =>
           afterResolve o reg name tag r (resolveManifest o reg name tag ({} : AcrSt)).2) := by
    unfold acrDeleteCore
    rw [hparse]
    dsimp only
    simp only [acr_bind_apply]
    rcases hres : (resolveManifest o reg name tag ({} : AcrSt)).1 with e | v
    · rfl
    · cases v with
      | none => rfl
      | some rq => rfl
  have hpres0 : deleteIssued ((resolveManifest o reg name tag ({} : AcrSt)).2.events) = false := by
    have := deleteIssued_resolveManifest o reg name tag ({} : AcrSt)
    simpa using this
  refine ⟨?_, ?_, ?_⟩
  · -- DELETE only after a 200-with-digest manifest read
    intro hdel
    rw [hred, catchAll_events, hcore] at hdel
    rcases hsplit : resolveManifest o reg name tag ({} : AcrSt) with ⟨res, s1⟩
    have hpres1 : deleteIssued s1.events = false := by
      rw [hsplit] at hpres0
      exact hpres0
    rw [hsplit] at hdel
    rcases res with e | v
    · dsimp only at hdel
      rw [hpres1] at hdel
      exact absurd hdel (by simp)
    · rcases v with _ | rq
      · dsimp only at hdel
        rw [hpres1] at hdel
        exact absurd hdel (by simp)
      · rcases rq with _ | r
        · dsimp only at hdel
          rw [afterResolve_none] at hdel
          dsimp only at hdel
          rw [hpres1] at hdel
          exact absurd hdel (by simp)
        · dsimp only at hdel
          by_cases hok : r.status = 200 ∧ r.digest.isSome = true
          · exact ⟨r, s1, rfl, hok⟩
          · have hnd : r.status ≠ 200 ∨ r.digest = none := by
              by_cases h200 : r.status = 200
              · right
                rcases hd : r.digest with _ | d
                · rfl
                · exact absurd ⟨h200, by rw [hd]; rfl⟩ hok
              · exact Or.inl h200
            rw [afterResolve_deleteIssued o reg name tag r s1 hnd, hpres1] at hdel
            exact absurd hdel (by simp)
  · -- 200 without digest: warn, no DELETE
    intro r s1 hres hst hdig
    have h1 : acrDeleteCore o image ({} : AcrSt) = afterResolve o reg name tag (some r) s1 := by
      rw [hcore, hres]
    have h2 : afterResolve o reg name tag (some r) s1 =
        (Except.ok (), { s1 with logs := s1.logs ++ [LogEv.warn "no digest in manifest response"] }) := by
      unfold afterResolve
      dsimp only
      rw [if_neg (by simp [hst]), if_neg (by simp [hst]), hdig]
      rfl
    have hrun : (acr_delete_image st o image) ({} : AcrSt) =
        (Except.ok (), { s1 with logs := s1.logs ++ [LogEv.warn "no digest in manifest response"] }) := by
      rw [hred]
      exact catchAll_ok _ _ _ _ () (h1.trans h2)
    have hpres1 : deleteIssued s1.events = false := by
      rw [hres] at hpres0
      exact hpres0
    rw [hrun]
    exact ⟨hpres1, by simp⟩
  · -- 404 with the tag absent from tags/list: benign log, no DELETE
    intro r s1 s2 hres hst htags
    have h1 : acrDeleteCore o image ({} : AcrSt) = afterResolve o reg name tag (some r) s1 := by
      rw [hcore, hres]
    have h2 : afterResolve o reg name tag (some r) s1 =
        (Except.ok (), { s2 with logs := s2.logs ++ [LogEv.info "acr image not found"] }) := by
      unfold afterResolve
      dsimp only
      rw [if_pos hst]
      simp only [acr_bind_apply]
      rw [htags]
      rfl
    have hrun : (acr_delete_image st o image) ({} : AcrSt) =
        (Except.ok (), { s2 with logs := s2.logs ++ [LogEv.info "acr image not found"] }) := by
      rw [hred]
      exact catchAll_ok _ _ _ _ () (h1.trans h2)
    have hpres2 : deleteIssued s2.events = false := by
      have hp := deleteIssued_repoTagsExist o reg name tag s1
      rw [htags] at hp
      dsimp only at hp
      rw [hp]
      rw [hres] at hpres0
      exact hpres0
    rw [hrun]
    exact ⟨hpres2, by simp⟩


theorem okProg_cons_acquire (r : List HbInstr) (l f : Bool) :
    okProg (HbInstr.acquire :: r) l f = true ↔ (l = false ∧ okProg r true f = true) := by
  cases l <;> simp [okProg, okProgAux]

theorem okProg_cons_hbBegin (r : List HbInstr) (l f : Bool) :
    okProg (HbInstr.hbBegin :: r) l f = true ↔ (l = true ∧ f = false ∧ okProg r true true = true) := by
  cases l <;> cases f <;> simp [okProg, okProgAux]

theorem okProg_cons_hbEnd (r : List HbInstr) (l f : Bool) :
    okProg (HbInstr.hbEnd :: r) l f = true ↔ (l = true ∧ f = true ∧ okProg r true false = true) := by
  cases l <;> cases f <;> simp [okProg, okProgAux]

theorem okProg_cons_release (r : List HbInstr) (l f : Bool) :
    okProg (HbInstr.release :: r) l f = true ↔ (l = true ∧ f = false ∧ okProg r false false = true) := by
  cases l <;> cases f <;> simp [okProg, okProgAux]

theorem okProg_cons_other (r : List HbInstr) (l f : Bool) :
    okProg (HbInstr.other :: r) l f = okProg r l f := rfl

theorem lockStep_inv (s s' : LockSys) (hinv : LockInv s) (hstep : LockStep s s') : LockInv s' := by
  obtain ⟨hA, hB, hokA, hokB⟩ := hinv
  cases hstep with
  | acquireA rest hprog hlock =>
      rw [hprog] at hokA
      rw [okProg_cons_acquire] at hokA
      refine ⟨fun _ => rfl, fun hfB => absurd (hB hfB) (by rw [hlock]; simp), ?_, ?_⟩
      · simpa using hokA.2
      · simpa [hlock] using hokB
  | hbBeginA rest hprog =>
      rw [hprog] at hokA
      rw [okProg_cons_hbBegin] at hokA
      have hl : s.lockHolder = some false := by simpa using hokA.1
      refine ⟨fun _ => hl, fun hfB => absurd (hB hfB) (by rw [hl]; simp), ?_, hokB⟩
      simpa [hl] using hokA.2.2
  | hbEndA rest hprog =>
      rw [hprog] at hokA
      rw [okProg_cons_hbEnd] at hokA
      have hl : s.lockHolder = some false := by simpa using hokA.1
      refine ⟨by simp, hB, ?_, hokB⟩
      simpa [hl] using hokA.2.2
  | releaseA rest hprog hlock =>
      rw [hprog] at hokA
      rw [okProg_cons_release] at hokA
      have hf : s.inFlightA = false := by simpa [hlock] using hokA.2.1
      refine ⟨by simp [hf], fun hfB => absurd (hB hfB) (by rw [hlock]; simp), ?_, ?_⟩
      · rw [hf]
        simpa using hokA.2.2
      · simpa [hlock] using hokB
  | otherA rest hprog =>
      rw [hprog] at hokA
      rw [okProg_cons_other] at hokA
      exact ⟨hA, hB, hokA, hokB⟩
  | acquireB rest hprog hlock =>
      rw [hprog] at hokB
      rw [okProg_cons_acquire] at hokB
      refine ⟨fun hfA => absurd (hA hfA) (by rw [hlock]; simp), fun _ => rfl, ?_, ?_⟩
      · simpa [hlock] using hokA
      · simpa using hokB.2
  | hbBeginB rest hprog =>
      rw [hprog] at hokB
      rw [okProg_cons_hbBegin] at hokB
      have hl : s.lockHolder = some true := by simpa using hokB.1
      refine ⟨fun hfA => absurd (hA hfA) (by rw [hl]; simp), fun _ => hl, hokA, ?_⟩
      simpa [hl] using hokB.2.2
  | hbEndB rest hprog =>
      rw [hprog] at hokB
      rw [okProg_cons_hbEnd] at hokB
      have hl : s.lockHolder = some true := by simpa using hokB.1
      refine ⟨hA, by simp, hokA, ?_⟩
      simpa [hl] using hokB.2.2
  | releaseB rest hprog hlock =>
      rw [hprog] at hokB
      rw [okProg_cons_release] at hokB
      have hf : s.inFlightB = false := by simpa [hlock] using hokB.2.1
      refine ⟨fun hfA => absurd (hA hfA) (by rw [hlock]; simp), by simp [hf], ?_, ?_⟩
      · simpa [hlock] using hokA
      · rw [hf]
        simpa using hokB.2.2
  | otherB rest hprog =>
      rw [hprog] at hokB
      rw [okProg_cons_other] at hokB
      exact ⟨hA, hB, hokA, hokB⟩

theorem lockReach_inv (s0 s : LockSys) (h0 : LockInv s0) (h : LockReach s0 s) : LockInv s := by
  induction h with
  | refl => exact h0
  | tail b c _ hstep ih => exact lockStep_inv b c ih hstep

theorem okProgAux_append (xs ys : List HbInstr) (l f : Bool) :
    okProgAux (xs ++ ys) l f = (okProgAux xs l f).bind (fun p => okProgAux ys p.1 p.2) := by
  induction xs generalizing l f with
  | nil => simp [okProgAux]
  | cons x r ih =>
      cases x <;> simp only [List.cons_append, okProgAux, List.append_eq] <;>
        (try split) <;> simp [ih]

theorem hbLoopProg_ok (n : Nat) : okProg (hbLoopThreadProg n) false false = true := by
  induction n with
  | zero => rfl
  | succ k ih =>
      unfold hbLoopThreadProg
      have h1 : okProgAux (withHbLock ++ [HbInstr.other]) false false = some (false, false) := by
        decide
      simp only [okProg, okProgAux_append, h1, Option.bind]
      simpa [okProg] using ih

theorem runnerLockSys_inv (n : Nat) : LockInv (runnerLockSys n) := by
  refine ⟨?_, ?_, ?_, ?_⟩
  · simp [runnerLockSys]
  · simp [runnerLockSys]
  · show okProg mainThreadHbProg (decide ((none : Option Bool) = some false)) false = true
    decide
  · show okProg (hbLoopThreadProg n) (decide ((none : Option Bool) = some true)) false = true
    simpa using hbLoopProg_ok n


/-- C8 (confirmed): in every interleaving of the orchestrator thread and the
heartbeat-loop thread — both running the lock-bracketed heartbeat sequences
written in `main.py` — at most one heartbeat HTTP request is in flight at
any instant. -/
theorem heartbeat_mutual_exclusion (n : Nat) (s : LockSys) (h : LockReach (runnerLockSys n) s) :
    ¬(s.inFlightA = true ∧ s.inFlightB = true) := by
  rintro ⟨hfA, hfB⟩
  obtain ⟨hA, hB, -, -⟩ := lockReach_inv _ _ (runnerLockSys_inv n) h
  have h1 := hA hfA
  have h2 := hB hfB
  rw [h1] at h2
  simp at h2


/-- C8 witness: the mutual-exclusion theorem applied at a state reachable in
two steps (the heartbeat thread holding the lock with its request in
flight). -/
theorem heartbeat_mutual_exclusion_witness : ¬(c8MidSys.inFlightA = true ∧ c8MidSys.inFlightB = true) :=
  heartbeat_mutual_exclusion 1 c8MidSys
    (LockReach.tail _ _ _
      (LockReach.tail _ _ _ (LockReach.refl _) (LockStep.acquireB _ _ rfl rfl))
      (LockStep.hbBeginB _ _ rfl))



/-- C3 witness: the amended theorem applied to a concrete well-formed
image-supplied job. -/
theorem report_exactly_once_nonempty_id_witness :
    ∃ stt, reportsOf (mainIter {} c3WitWorld {}).1 = [("j1", stt)] ∧
      (stt = "SUCCEEDED" ↔
        applicablePhasesCompleted (pyStrOrEmpty ((c3WitJob.payload.getD {}).image) != "")
          (mainIter {} c3WitWorld {}).1 = true) :=
  report_exactly_once_nonempty_id {} c3WitWorld {} c3WitJob "j1" rfl rfl (by decide)


/-- C6 witness: a registry whose manifest read answers 200 without a
`Docker-Content-Digest` header — no DELETE is issued and the warning is
logged. -/
theorem delete_only_after_digest_200_witness :
    deleteIssued ((acr_delete_image c6Settings c6Oracle c6Image) {}).2.events = false ∧
    LogEv.warn "no digest in manifest response" ∈
      ((acr_delete_image c6Settings c6Oracle c6Image) {}).2.logs :=
  (delete_only_after_digest_200 c6Settings c6Oracle c6Image "reg.example.com" "ns/app" "v1"
      (by decide) (by decide) (by decide) (by rfl)).2.1
    { status := 200 }
    (resolveManifest c6Oracle "reg.example.com" "ns/app" "v1" {}).2
    (by rfl) rfl rfl


/-- C7 witness: a concrete 401-with-challenge world with a working token
endpoint — the request is retried once with the bearer header and the
retry's response is returned. -/
theorem bearer_retry_contract_witness :
    (request_with_token c7WitWorld "DELETE" "https://reg.example.com/v2/ns/app/manifests/sha"
        "repository:ns/app:pull,push,delete" []).ev.retriedWithAuth = some ("Bearer " ++ "tok123") ∧
    (request_with_token c7WitWorld "DELETE" "https://reg.example.com/v2/ns/app/manifests/sha"
        "repository:ns/app:pull,push,delete" []).result = c7WitWorld.retry :=
  ((bearer_retry_contract c7WitWorld "DELETE" "https://reg.example.com/v2/ns/app/manifests/sha"
      "repository:ns/app:pull,push,delete" []
      { status := 401, wwwAuth := "Bearer realm=\"https://auth.example/token\",service=\"registry\"" }
      rfl rfl).2.2 "tok123" (by rfl)).1 (by decide)
